import Mathlib

/-!
Shallow embedding of the `todoist_rest` task model (`src/model/task.rs`):
the `Due` and `Task` structures, their constructors and mutators, the
hand-written `Serialize` implementation for `Task`, and the derived
`Deserialize` behaviour for `Due` and `Task`, modelled over an explicit
JSON value type. Machine integers (`u32`) are modelled as `Nat` with the
range check performed where the code performs it (deserialization).
-/

namespace TodoistRest

/-- JSON values as produced/consumed by serde_json, restricted to the
shapes this crate exchanges (numbers are integers here; the crate only
ever reads and writes integral numbers). Object fields are an ordered
association list. -/
inductive JValue where
  | null : JValue
  | bool (b : Bool) : JValue
  | num (n : Int) : JValue
  | str (s : String) : JValue
  | arr (elems : List JValue) : JValue
  | obj (fields : List (String × JValue)) : JValue

/-- `Due` struct from `src/model/task.rs` lines 8-21: human string plus
optional structured date, datetime and timezone. -/
structure Due where
  string : String
  date : Option String
  datetime : Option String
  timezone : Option String
deriving DecidableEq

/-- `Due::create` (task.rs 37-44): sets `string`, leaves the rest `None`. -/
def Due.create (string : String) : Due :=
  { string := string, date := none, datetime := none, timezone := none }

/-- `Due::set_string` (task.rs 59-64): sets `string`, clears the rest. -/
def Due.set_string (d : Due) (string : String) : Due :=
  { d with string := string, date := none, datetime := none, timezone := none }

/-- `Due::set_date` (task.rs 82-87): sets `string` and `date` to the given
date, clears `datetime` and `timezone`. -/
def Due.set_date (d : Due) (date : String) : Due :=
  { d with string := date, date := some date, datetime := none, timezone := none }

/-- `Due::set_datetime` (task.rs 106-111): sets `string` and `datetime` to
the given datetime, clears `date` and `timezone`. -/
def Due.set_datetime (d : Due) (datetime : String) : Due :=
  { d with string := datetime, date := none, datetime := some datetime, timezone := none }

/-- `Task` struct from `src/model/task.rs` lines 159-183. `u32` fields are
modelled as `Nat`. -/
structure Task where
  id : Option Nat
  project_id : Option Nat
  content : String
  completed : Bool
  label_ids : List Nat
  order : Option Nat
  indent : Option Nat
  priority : Nat
  due : Option Due
  url : Option String
  comment_count : Option Nat
deriving DecidableEq

/-- `Task::create` (task.rs 196-210): content set, priority 1, completed
false, empty labels, everything else `None`. -/
def Task.create (content : String) : Task :=
  { id := none
    project_id := none
    content := content
    completed := false
    label_ids := []
    order := none
    indent := none
    priority := 1
    due := none
    url := none
    comment_count := none }

/-- `Task::set_due` (task.rs 225-227): unconditional replacement. -/
def Task.set_due (t : Task) (due : Option Due) : Task :=
  { t with due := due }

/-- Outcome of a Rust call that may `panic!`: either a normal return or a
process abort carrying the panic message. -/
inductive PanicResult (α : Type) where
  | panicked (msg : String) : PanicResult α
  | ok (value : α) : PanicResult α
deriving DecidableEq

/-- `Task::set_priority` (task.rs 244-249): the `1...4` (inclusive) range
pattern accepts 1, 2, 3, 4 and assigns; every other value hits the
`panic!` arm, aborting the process. -/
def Task.set_priority (t : Task) (priority : Nat) : PanicResult Task :=
  if 1 ≤ priority ∧ priority ≤ 4 then
    .ok { t with priority := priority }
  else
    .panicked "The priority must be a value from 1 and 4."

/-- `Task::remove_label_id` (task.rs 266-268): `retain` keeps, in order,
exactly the elements different from `label_id`. -/
def Task.remove_label_id (t : Task) (label_id : Nat) : Task :=
  { t with label_ids := t.label_ids.filter (fun id => id != label_id) }

/-- `Task::add_label_id` (task.rs 283-285): push to the end. -/
def Task.add_label_id (t : Task) (label_id : Nat) : Task :=
  { t with label_ids := t.label_ids ++ [label_id] }

/-- `Task::set_content` (task.rs 298-300): unconditional replacement. -/
def Task.set_content (t : Task) (content : String) : Task :=
  { t with content := content }

/-- `Task::set_completed` (task.rs 313-315): unconditional replacement. -/
def Task.set_completed (t : Task) (completed : Bool) : Task :=
  { t with completed := completed }

/-- serde serialization of an `Option<u32>` field value: `None` becomes
JSON `null`, `Some n` the number. -/
def serializeOptNat : Option Nat → JValue
  | none => .null
  | some n => .num n

/-- The field count the `Serialize` impl (task.rs 482-497) passes to
`serialize_struct`: 5 without a due value, 6 when `datetime` or `date`
is emitted, 7 for the `due_string`/`due_lang` pair. -/
def Task.serializeLen (t : Task) : Nat :=
  match t.due with
  | some due =>
    match due.datetime with
    | some _ => 6
    | none =>
      match due.date with
      | some _ => 6
      | none => 7
  | none => 5

/-- The ordered field list emitted by `impl Serialize for Task`
(task.rs 499-530): the five fixed fields, then the due fields chosen by
the nested match on `due.datetime` / `due.date`. -/
def Task.serialize (t : Task) : List (String × JValue) :=
  [("content", .str t.content),
   ("project_id", serializeOptNat t.project_id),
   ("order", serializeOptNat t.order),
   ("label_ids", .arr (t.label_ids.map (fun n => .num (n : Int)))),
   ("priority", .num (t.priority : Int))] ++
  (match t.due with
   | some due =>
     match due.datetime with
     | some datetime => [("due_datetime", .str datetime)]
     | none =>
       match due.date with
       | some date => [("due_date", .str date)]
       | none => [("due_string", .str due.string), ("due_lang", .str "en")]
   | none => [])

/-- The names a `Task` write can emit for due-date data. -/
def isDueField (name : String) : Bool :=
  name = "due_datetime" || name = "due_date" || name = "due_string" || name = "due_lang"

/-- The due-related fields among a task's serialized output. -/
def Task.dueFields (t : Task) : List (String × JValue) :=
  t.serialize.filter (fun p => isDueField p.1)

/-- serde deserialization of a `u32`: an integral JSON number in
`[0, 2^32)`; anything else is a type/value error. -/
def decodeU32 : JValue → Except String Nat
  | .num n =>
    if 0 ≤ n ∧ n < 4294967296 then .ok n.toNat
    else .error "invalid value: out of range for u32"
  | _ => .error "invalid type: expected u32"

/-- serde deserialization of a `String`. -/
def decodeString : JValue → Except String String
  | .str s => .ok s
  | _ => .error "invalid type: expected a string"

/-- serde deserialization of a `bool`. -/
def decodeBool : JValue → Except String Bool
  | .bool b => .ok b
  | _ => .error "invalid type: expected a boolean"

/-- serde deserialization of the elements of a `Vec<u32>`. -/
def decodeU32Elems : List JValue → Except String (List Nat)
  | [] => .ok []
  | j :: rest =>
    Except.bind (decodeU32 j) fun n =>
    Except.bind (decodeU32Elems rest) fun ns =>
    .ok (n :: ns)

/-- serde deserialization of a `Vec<u32>`: a JSON array of u32 numbers. -/
def decodeU32Array : JValue → Except String (List Nat)
  | .arr elems => decodeU32Elems elems
  | _ => .error "invalid type: expected a sequence"

/-- Derived-`Deserialize` handling of a required struct field: the field
must be present (its first occurrence is consulted) and decode, otherwise
the whole decode fails. -/
def reqField (l : List (String × JValue)) (name : String)
    (dec : JValue → Except String α) : Except String α :=
  match List.lookup name l with
  | some v => dec v
  | none => .error ("missing field " ++ name)

/-- Derived-`Deserialize` handling of an `Option<T>` struct field: a
missing field and an explicit `null` both decode to `None`; any other
value must decode as `T`. -/
def optField (l : List (String × JValue)) (name : String)
    (dec : JValue → Except String α) : Except String (Option α) :=
  match List.lookup name l with
  | some .null => .ok none
  | some v => Except.map some (dec v)
  | none => .ok none

/-- Derived `Deserialize` for `Due` (task.rs 8-21): `string` required,
`date`/`datetime`/`timezone` optional strings; unknown fields (such as a
recurrence flag) are ignored because `deny_unknown_fields` is not set. -/
def Due.deserialize (j : JValue) : Except String Due :=
  match j with
  | .obj l =>
    Except.bind (reqField l "string" decodeString) fun string =>
    Except.bind (optField l "date" decodeString) fun date =>
    Except.bind (optField l "datetime" decodeString) fun datetime =>
    Except.bind (optField l "timezone" decodeString) fun timezone =>
    .ok { string := string, date := date, datetime := datetime, timezone := timezone }
  | _ => .error "invalid type: expected struct Due"

/-- Derived `Deserialize` for `Task` (task.rs 159-183): `content`,
`completed`, `label_ids` and `priority` are required (non-`Option`
fields); the `Option` fields default to `None` when absent; unknown
fields are ignored. No range check is performed on `priority`. -/
def Task.deserialize (j : JValue) : Except String Task :=
  match j with
  | .obj l =>
    Except.bind (optField l "id" decodeU32) fun id =>
    Except.bind (optField l "project_id" decodeU32) fun project_id =>
    Except.bind (reqField l "content" decodeString) fun content =>
    Except.bind (reqField l "completed" decodeBool) fun completed =>
    Except.bind (reqField l "label_ids" decodeU32Array) fun label_ids =>
    Except.bind (optField l "order" decodeU32) fun order =>
    Except.bind (optField l "indent" decodeU32) fun indent =>
    Except.bind (reqField l "priority" decodeU32) fun priority =>
    Except.bind (optField l "due" Due.deserialize) fun due =>
    Except.bind (optField l "url" decodeString) fun url =>
    Except.bind (optField l "comment_count" decodeU32) fun comment_count =>
    .ok { id := id, project_id := project_id, content := content,
          completed := completed, label_ids := label_ids, order := order,
          indent := indent, priority := priority, due := due, url := url,
          comment_count := comment_count }
  | _ => .error "invalid type: expected struct Task"

/-- The wire field names the derived `Task` deserializer consults. -/
def knownTaskFields : List String :=
  ["id", "project_id", "content", "completed", "label_ids",
   "order", "indent", "priority", "due", "url", "comment_count"]

/-- The wire field names the derived `Due` deserializer consults. -/
def knownDueFields : List String :=
  ["string", "date", "datetime", "timezone"]

/-- Tasks reachable through the public interface without decoding:
built by `Task::create` and closed under the mutators, where a
`set_priority` step counts only when the call returns (does not panic). -/
inductive TaskReachable : Task → Prop where
  | create (content : String) : TaskReachable (Task.create content)
  | set_due (t : Task) (due : Option Due) :
      TaskReachable t → TaskReachable (t.set_due due)
  | set_priority (t t' : Task) (n : Nat) :
      TaskReachable t → t.set_priority n = .ok t' → TaskReachable t'
  | add_label_id (t : Task) (id : Nat) :
      TaskReachable t → TaskReachable (t.add_label_id id)
  | remove_label_id (t : Task) (id : Nat) :
      TaskReachable t → TaskReachable (t.remove_label_id id)
  | set_content (t : Task) (content : String) :
      TaskReachable t → TaskReachable (t.set_content content)
  | set_completed (t : Task) (completed : Bool) :
      TaskReachable t → TaskReachable (t.set_completed completed)

/-- Due values built by `Due::create` and the three mutators, without
decoding from wire JSON. -/
inductive DueReachable : Due → Prop where
  | create (string : String) : DueReachable (Due.create string)
  | set_string (d : Due) (string : String) :
      DueReachable d → DueReachable (d.set_string string)
  | set_date (d : Due) (date : String) :
      DueReachable d → DueReachable (d.set_date date)
  | set_datetime (d : Due) (datetime : String) :
      DueReachable d → DueReachable (d.set_datetime datetime)

/-- The `due` object of the repository's `deserialize_task` test: both
`date` and `datetime` present, plus an unknown `recurring` flag. -/
def wireDueJson : JValue :=
  .obj [("date", .str "2016-09-01"), ("recurring", .bool true),
        ("datetime", .str "2016-09-01T09:00:00Z"), ("string", .str "tomorrow at 12"),
        ("timezone", .str "Europe/Moscow")]

/-- A wire read-model object whose required fields are well-typed but
whose `priority` is 7, outside the documented range. -/
def c3WireJson : JValue :=
  .obj [("content", .str "My task"), ("completed", .bool false),
        ("priority", .num 7), ("label_ids", .arr [])]

/-- A wire read-model object with the four required fields plus an
unknown extra field. -/
def c5WireTask : List (String × JValue) :=
  [("content", .str "My task"), ("completed", .bool true),
   ("priority", .num 4), ("label_ids", .arr [.num 124]),
   ("extra_field", .str "ignored")]

/-- The task `c5WireTask` decodes to. -/
def c5DecodedTask : Task :=
  { id := none, project_id := none, content := "My task", completed := true,
    label_ids := [124], order := none, indent := none, priority := 4,
    due := none, url := none, comment_count := none }

/-- The task of the repository's `update_task_properties` test right
before the `remove_label_id(4)` call: labels [10, 4, 1]. -/
def c7Task : Task :=
  (((Task.create "Test Task").add_label_id 10).add_label_id 4).add_label_id 1

/-- Inversion for `Except.bind`: a bind returns `ok` exactly when both
stages do. -/
theorem exceptBind_eq_ok {ε α β : Type} {x : Except ε α} {f : α → Except ε β} {b : β} :
    Except.bind x f = Except.ok b ↔ ∃ a, x = Except.ok a ∧ f a = Except.ok b := by
  cases x <;> simp [Except.bind]

/-- A required field decodes successfully only when present and
well-typed. -/
theorem reqField_eq_ok {α : Type} {l : List (String × JValue)} {name : String}
    {dec : JValue → Except String α} {a : α} (h : reqField l name dec = .ok a) :
    ∃ v, List.lookup name l = some v ∧ dec v = .ok a := by
  unfold reqField at h
  rcases heq : List.lookup name l with _ | v
  · rw [heq] at h; cases h
  · rw [heq] at h; exact ⟨v, rfl, h⟩

/-- A missing optional field decodes to `none`. -/
theorem optField_of_lookup_none {α : Type} {l : List (String × JValue)} {name : String}
    {dec : JValue → Except String α} (h : List.lookup name l = none) :
    optField l name dec = .ok none := by
  unfold optField; rw [h]

/-- Looking up a name the key filter keeps is unaffected by filtering the
object down to the kept keys. -/
theorem lookup_filter_key {l : List (String × JValue)} {f : String → Bool}
    {name : String} (h : f name = true) :
    List.lookup name (l.filter (fun p => f p.1)) = List.lookup name l := by
  induction l with
  | nil => rfl
  | cons hd tl ih =>
    rcases hd with ⟨k, v⟩
    by_cases hk : name = k
    · subst hk
      simp [List.filter_cons, List.lookup, h]
    · have hbeq : (name == k) = false := beq_false_of_ne hk
      by_cases hfk : f k = true
      · simp [List.filter_cons, List.lookup, hfk, hbeq, ih]
      · simp [List.filter_cons, List.lookup, hfk, hbeq, ih]

/-- `reqField` depends on the object only through the lookup of its
name. -/
theorem reqField_congr {α : Type} {l₁ l₂ : List (String × JValue)} {name : String}
    {dec : JValue → Except String α}
    (h : List.lookup name l₁ = List.lookup name l₂) :
    reqField l₁ name dec = reqField l₂ name dec := by
  unfold reqField; rw [h]

/-- `optField` depends on the object only through the lookup of its
name. -/
theorem optField_congr {α : Type} {l₁ l₂ : List (String × JValue)} {name : String}
    {dec : JValue → Except String α}
    (h : List.lookup name l₁ = List.lookup name l₂) :
    optField l₁ name dec = optField l₂ name dec := by
  unfold optField; rw [h]

/-- Closed form of the due-related output of `Task` serialization: the
nested match of the `Serialize` impl. -/
theorem Task.dueFields_eq (t : Task) :
    t.dueFields =
      (match t.due with
       | some due =>
         match due.datetime with
         | some datetime => [("due_datetime", JValue.str datetime)]
         | none =>
           match due.date with
           | some date => [("due_date", JValue.str date)]
           | none => [("due_string", JValue.str due.string), ("due_lang", JValue.str "en")]
       | none => []) := by
  rcases t with ⟨id, pid, content, comp, lbls, ord, ind, pri, due, url, cc⟩
  rcases due with _ | ⟨s, date, datetime, tz⟩
  · rfl
  · rcases datetime with _ | dt
    · rcases date with _ | d <;> rfl
    · rfl

/-- Filtering a wire object down to the fields the `Task` deserializer
consults does not change the decode result. -/
theorem taskDeserialize_ignores_unknown (l : List (String × JValue)) :
    Task.deserialize (.obj (l.filter (fun p => knownTaskFields.contains p.1))) =
      Task.deserialize (.obj l) := by
  have h1 : List.lookup "id" (l.filter (fun p => knownTaskFields.contains p.1)) =
      List.lookup "id" l := lookup_filter_key (by decide)
  have h2 : List.lookup "project_id" (l.filter (fun p => knownTaskFields.contains p.1)) =
      List.lookup "project_id" l := lookup_filter_key (by decide)
  have h3 : List.lookup "content" (l.filter (fun p => knownTaskFields.contains p.1)) =
      List.lookup "content" l := lookup_filter_key (by decide)
  have h4 : List.lookup "completed" (l.filter (fun p => knownTaskFields.contains p.1)) =
      List.lookup "completed" l := lookup_filter_key (by decide)
  have h5 : List.lookup "label_ids" (l.filter (fun p => knownTaskFields.contains p.1)) =
      List.lookup "label_ids" l := lookup_filter_key (by decide)
  have h6 : List.lookup "order" (l.filter (fun p => knownTaskFields.contains p.1)) =
      List.lookup "order" l := lookup_filter_key (by decide)
  have h7 : List.lookup "indent" (l.filter (fun p => knownTaskFields.contains p.1)) =
      List.lookup "indent" l := lookup_filter_key (by decide)
  have h8 : List.lookup "priority" (l.filter (fun p => knownTaskFields.contains p.1)) =
      List.lookup "priority" l := lookup_filter_key (by decide)
  have h9 : List.lookup "due" (l.filter (fun p => knownTaskFields.contains p.1)) =
      List.lookup "due" l := lookup_filter_key (by decide)
  have h10 : List.lookup "url" (l.filter (fun p => knownTaskFields.contains p.1)) =
      List.lookup "url" l := lookup_filter_key (by decide)
  have h11 : List.lookup "comment_count" (l.filter (fun p => knownTaskFields.contains p.1)) =
      List.lookup "comment_count" l := lookup_filter_key (by decide)
  simp only [Task.deserialize]
  rw [optField_congr h1, optField_congr h2, reqField_congr h3, reqField_congr h4,
      reqField_congr h5, optField_congr h6, optField_congr h7, reqField_congr h8,
      optField_congr h9, optField_congr h10, optField_congr h11]

/-- Filtering a wire `due` object down to the fields the `Due`
deserializer consults does not change the decode result. -/
theorem dueDeserialize_ignores_unknown (l : List (String × JValue)) :
    Due.deserialize (.obj (l.filter (fun p => knownDueFields.contains p.1))) =
      Due.deserialize (.obj l) := by
  have h1 : List.lookup "string" (l.filter (fun p => knownDueFields.contains p.1)) =
      List.lookup "string" l := lookup_filter_key (by decide)
  have h2 : List.lookup "date" (l.filter (fun p => knownDueFields.contains p.1)) =
      List.lookup "date" l := lookup_filter_key (by decide)
  have h3 : List.lookup "datetime" (l.filter (fun p => knownDueFields.contains p.1)) =
      List.lookup "datetime" l := lookup_filter_key (by decide)
  have h4 : List.lookup "timezone" (l.filter (fun p => knownDueFields.contains p.1)) =
      List.lookup "timezone" l := lookup_filter_key (by decide)
  simp only [Due.deserialize]
  rw [reqField_congr h1, optField_congr h2, optField_congr h3, optField_congr h4]

/-- C1: encoding a Task resolves the due-date fields by strict precedence:
with `datetime` set, exactly `due_datetime` is emitted; with `datetime`
unset and `date` set, exactly `due_date`; with both unset, exactly
`due_string` together with `due_lang = "en"`; with no due value, no
due-related field at all. -/
theorem c1_due_field_precedence (t : Task) :
    (∀ d v, t.due = some d → d.datetime = some v →
      t.dueFields = [("due_datetime", JValue.str v)]) ∧
    (∀ d v, t.due = some d → d.datetime = none → d.date = some v →
      t.dueFields = [("due_date", JValue.str v)]) ∧
    (∀ d, t.due = some d → d.datetime = none → d.date = none →
      t.dueFields = [("due_string", JValue.str d.string), ("due_lang", JValue.str "en")]) ∧
    (t.due = none → t.dueFields = []) := by
  refine ⟨?_, ?_, ?_, ?_⟩
  · intro d v hdue hdt
    simp [Task.dueFields_eq, hdue, hdt]
  · intro d v hdue hdt hdate
    simp [Task.dueFields_eq, hdue, hdt, hdate]
  · intro d hdue hdt hdate
    simp [Task.dueFields_eq, hdue, hdt, hdate]
  · intro hdue
    simp [Task.dueFields_eq, hdue]

/-- C1 witness: the four precedence branches at concrete tasks. -/
theorem c1_due_field_precedence_witness :
    ((Task.create "T").set_due (some ((Due.create "x").set_datetime "2017-12-25T12:00:00Z"))).dueFields
      = [("due_datetime", JValue.str "2017-12-25T12:00:00Z")] ∧
    ((Task.create "T").set_due (some ((Due.create "x").set_date "2017-12-25"))).dueFields
      = [("due_date", JValue.str "2017-12-25")] ∧
    ((Task.create "T").set_due (some (Due.create "tomorrow at noon"))).dueFields
      = [("due_string", JValue.str "tomorrow at noon"), ("due_lang", JValue.str "en")] ∧
    (Task.create "T").dueFields = [] :=
  ⟨(c1_due_field_precedence _).1 _ _ rfl rfl,
   (c1_due_field_precedence _).2.1 _ _ rfl rfl rfl,
   (c1_due_field_precedence _).2.2.1 _ rfl rfl rfl,
   (c1_due_field_precedence _).2.2.2 rfl⟩

/-- C2: the claim requires `set_priority` to reject values outside
{1,2,3,4} with a recoverable ValidationError; the code instead hits the
`panic!` arm and aborts the process. This theorem records the code's
actual behaviour at failing inputs 5 and 0, and the successful update at
3. -/
theorem c2_set_priority_panics :
    Task.set_priority (Task.create "Test Task") 5 =
      .panicked "The priority must be a value from 1 and 4." ∧
    Task.set_priority (Task.create "Test Task") 0 =
      .panicked "The priority must be a value from 1 and 4." ∧
    Task.set_priority (Task.create "Test Task") 3 =
      .ok { Task.create "Test Task" with priority := 3 } := by
  refine ⟨?_, ?_, ?_⟩ <;> decide

/-- C6: `create(content)` yields a task whose content is the given
string, priority 1, completed false, empty label list, and all optional
server-assigned fields unset. -/
theorem c6_create_defaults (content : String) :
    (Task.create content).content = content ∧
    (Task.create content).priority = 1 ∧
    (Task.create content).completed = false ∧
    (Task.create content).label_ids = [] ∧
    (Task.create content).id = none ∧
    (Task.create content).project_id = none ∧
    (Task.create content).order = none ∧
    (Task.create content).indent = none ∧
    (Task.create content).due = none ∧
    (Task.create content).url = none ∧
    (Task.create content).comment_count = none :=
  ⟨rfl, rfl, rfl, rfl, rfl, rfl, rfl, rfl, rfl, rfl, rfl⟩

/-- C8: `set_date(d)` sets `date` to `d`, mirrors `d` into `string`, and
clears `datetime` and `timezone`; in particular the spec's concrete
scenario starting from `create("tomorrow at noon")`. -/
theorem c8_set_date_mirrors_string (d : Due) (date : String) :
    (d.set_date date).string = date ∧
    (d.set_date date).date = some date ∧
    (d.set_date date).datetime = none ∧
    (d.set_date date).timezone = none ∧
    ((Due.create "tomorrow at noon").set_date "2017-12-25").string = "2017-12-25" ∧
    ((Due.create "tomorrow at noon").set_date "2017-12-25").date = some "2017-12-25" ∧
    ((Due.create "tomorrow at noon").set_date "2017-12-25").datetime = none :=
  ⟨rfl, rfl, rfl, rfl, rfl, rfl, rfl⟩

/-- C9 counterexample: the claim that every reachable Task has non-empty
content is false; `create` and `set_content` accept the empty string
unchecked. -/
theorem c9_empty_content_reachable :
    (Task.create "").content = "" ∧
    ((Task.create "Test Task").set_content "").content = "" :=
  ⟨rfl, rfl⟩

/-- C9 amended: `create` and `set_content` store exactly the given
string; no non-emptiness (or any other) validation is performed on
content, so a Task with empty content is constructible. -/
theorem c9_content_stored_unvalidated (s : String) (t : Task) :
    (Task.create s).content = s ∧ (t.set_content s).content = s :=
  ⟨rfl, rfl⟩

/-- C3 counterexample: decoding wire JSON is part of the public
interface, and the derived deserializer performs no range check, so a
wire object with `priority = 7` decodes successfully to a Task whose
priority is outside {1,2,3,4}. -/
theorem c3_decoded_priority_out_of_range :
    (Task.deserialize c3WireJson).toOption.map Task.priority = some 7 ∧
    ¬(7 = 1 ∨ 7 = 2 ∨ 7 = 3 ∨ 7 = 4) :=
  ⟨rfl, by decide⟩

/-- C3 amended: every Task built by `create` or by a sequence of mutator
calls that return (excluding decoding from wire JSON) has priority in
{1,2,3,4}. -/
theorem c3_mutator_built_priority_in_range (t : Task) (h : TaskReachable t) :
    1 ≤ t.priority ∧ t.priority ≤ 4 := by
  induction h with
  | create content => exact ⟨Nat.le_refl 1, Nat.le.intro (k := 3) rfl⟩
  | set_due t due ht ih => simpa [Task.set_due] using ih
  | add_label_id t id ht ih => simpa [Task.add_label_id] using ih
  | remove_label_id t id ht ih => simpa [Task.remove_label_id] using ih
  | set_content t content ht ih => simpa [Task.set_content] using ih
  | set_completed t completed ht ih => simpa [Task.set_completed] using ih
  | set_priority t t' n ht heq ih =>
    unfold Task.set_priority at heq
    split at heq
    · next hcond =>
      cases heq
      simpa using hcond
    · exact absurd heq (by simp)

/-- C3 amended witness: the invariant at a freshly created task. -/
theorem c3_mutator_built_priority_in_range_witness :
    1 ≤ (Task.create "Test Task").priority ∧ (Task.create "Test Task").priority ≤ 4 :=
  c3_mutator_built_priority_in_range _ (TaskReachable.create "Test Task")

/-- C4: encoding always emits `content`, `project_id`, `order`,
`label_ids`, `priority`, in that order, before any due-date field, and
never emits `id`, `indent`, `url` or `comment_count`. -/
theorem c4_fixed_write_fields (t : Task) :
    t.serialize.take 5 =
      [("content", JValue.str t.content),
       ("project_id", serializeOptNat t.project_id),
       ("order", serializeOptNat t.order),
       ("label_ids", JValue.arr (t.label_ids.map (fun n => JValue.num (n : Int)))),
       ("priority", JValue.num (t.priority : Int))] ∧
    (∀ p ∈ t.serialize.drop 5, isDueField p.1 = true) ∧
    (∀ p ∈ t.serialize,
      p.1 ≠ "id" ∧ p.1 ≠ "indent" ∧ p.1 ≠ "url" ∧ p.1 ≠ "comment_count") := by
  refine ⟨rfl, ?_, ?_⟩
  · intro p hp
    rcases hdue : t.due with _ | due
    · simp [Task.serialize, hdue] at hp
    · rcases hdt : due.datetime with _ | dt
      · rcases hdate : due.date with _ | d
        · simp [Task.serialize, hdue, hdt, hdate] at hp
          rcases hp with h | h <;> subst h <;> rfl
        · simp [Task.serialize, hdue, hdt, hdate] at hp
          subst hp; rfl
      · simp [Task.serialize, hdue, hdt] at hp
        subst hp; rfl
  · intro p hp
    rcases hdue : t.due with _ | due
    · simp [Task.serialize, hdue] at hp
      rcases hp with h | h | h | h | h <;> subst h <;>
        exact ⟨by simp, by simp, by simp, by simp⟩
    · rcases hdt : due.datetime with _ | dt
      · rcases hdate : due.date with _ | d
        · simp [Task.serialize, hdue, hdt, hdate] at hp
          rcases hp with h | h | h | h | h | h | h <;> subst h <;>
            exact ⟨by simp, by simp, by simp, by simp⟩
        · simp [Task.serialize, hdue, hdt, hdate] at hp
          rcases hp with h | h | h | h | h | h <;> subst h <;>
            exact ⟨by simp, by simp, by simp, by simp⟩
      · simp [Task.serialize, hdue, hdt] at hp
        rcases hp with h | h | h | h | h | h <;> subst h <;>
          exact ⟨by simp, by simp, by simp, by simp⟩

/-- C4 witness: the theorem at a concrete task with a free-text due
value, checked on concrete emitted fields. -/
theorem c4_fixed_write_fields_witness :
    ((Task.create "Test Task").set_due (some (Due.create "tomorrow at noon"))).serialize.take 5 =
      [("content", JValue.str "Test Task"),
       ("project_id", JValue.null),
       ("order", JValue.null),
       ("label_ids", JValue.arr []),
       ("priority", JValue.num 1)] ∧
    isDueField ("due_string", JValue.str "tomorrow at noon").1 = true ∧
    (("content", JValue.str "Test Task").1 ≠ "id" ∧
     ("content", JValue.str "Test Task").1 ≠ "indent" ∧
     ("content", JValue.str "Test Task").1 ≠ "url" ∧
     ("content", JValue.str "Test Task").1 ≠ "comment_count") :=
  ⟨(c4_fixed_write_fields ((Task.create "Test Task").set_due (some (Due.create "tomorrow at noon")))).1,
   (c4_fixed_write_fields ((Task.create "Test Task").set_due (some (Due.create "tomorrow at noon")))).2.1
     ("due_string", JValue.str "tomorrow at noon") (List.Mem.head _),
   (c4_fixed_write_fields ((Task.create "Test Task").set_due (some (Due.create "tomorrow at noon")))).2.2
     ("content", JValue.str "Test Task") (List.Mem.head _)⟩

/-- C7: `remove_label_id(x)` removes every occurrence of `x` from
`label_ids`, keeps the remaining elements in their original relative
order (the result is a sublist preserving all counts of other ids), and
changes no other field. -/
theorem c7_remove_label_id_spec (t : Task) (x : Nat) :
    x ∉ (t.remove_label_id x).label_ids ∧
    List.Sublist (t.remove_label_id x).label_ids t.label_ids ∧
    (∀ y, y ≠ x → (t.remove_label_id x).label_ids.count y = t.label_ids.count y) ∧
    (t.remove_label_id x).id = t.id ∧
    (t.remove_label_id x).project_id = t.project_id ∧
    (t.remove_label_id x).content = t.content ∧
    (t.remove_label_id x).completed = t.completed ∧
    (t.remove_label_id x).order = t.order ∧
    (t.remove_label_id x).indent = t.indent ∧
    (t.remove_label_id x).priority = t.priority ∧
    (t.remove_label_id x).due = t.due ∧
    (t.remove_label_id x).url = t.url ∧
    (t.remove_label_id x).comment_count = t.comment_count := by
  refine ⟨?_, ?_, ?_, rfl, rfl, rfl, rfl, rfl, rfl, rfl, rfl, rfl, rfl⟩
  · simp [Task.remove_label_id]
  · exact List.filter_sublist t.label_ids
  · intro y hy
    show (t.label_ids.filter (fun id => id != x)).count y = t.label_ids.count y
    rw [List.count_filter]
    simp [hy]

/-- C7 witness: the repository test scenario, labels [10, 4, 1] with 4
removed. -/
theorem c7_remove_label_id_spec_witness :
    4 ∉ (c7Task.remove_label_id 4).label_ids ∧
    (c7Task.remove_label_id 4).label_ids.count 10 = c7Task.label_ids.count 10 ∧
    (c7Task.remove_label_id 4).label_ids.count 1 = c7Task.label_ids.count 1 :=
  ⟨(c7_remove_label_id_spec c7Task 4).1,
   (c7_remove_label_id_spec c7Task 4).2.2.1 10 (by decide),
   (c7_remove_label_id_spec c7Task 4).2.2.1 1 (by decide)⟩

/-- C10: Due values built by `create` and the mutators have at most one
of `date`/`datetime` set, `timezone` always unset, and `string`
mirroring whichever structured field is set; a Due decoded from the wire
(here the repository test's due object) can carry both `date` and
`datetime`, so the guarantee is only for mutator-built values. -/
theorem c10_mutator_built_due_invariant :
    (∀ d, DueReachable d →
      d.timezone = none ∧
      (d.date = none ∨ d.datetime = none) ∧
      (∀ v, d.date = some v → d.string = v) ∧
      (∀ v, d.datetime = some v → d.string = v)) ∧
    Due.deserialize wireDueJson =
      .ok { string := "tomorrow at 12", date := some "2016-09-01",
            datetime := some "2016-09-01T09:00:00Z", timezone := some "Europe/Moscow" } := by
  constructor
  · intro d h
    induction h with
    | create s => exact ⟨rfl, Or.inl rfl, by simp [Due.create], by simp [Due.create]⟩
    | set_string d s hd ih => exact ⟨rfl, Or.inl rfl, by simp [Due.set_string], by simp [Due.set_string]⟩
    | set_date d s hd ih =>
      refine ⟨rfl, Or.inr rfl, ?_, by simp [Due.set_date]⟩
      intro v hv
      simp [Due.set_date] at hv
      simp [Due.set_date, hv]
    | set_datetime d s hd ih =>
      refine ⟨rfl, Or.inl rfl, by simp [Due.set_datetime], ?_⟩
      intro v hv
      simp [Due.set_datetime] at hv
      simp [Due.set_datetime, hv]
  · rfl

/-- C10 witness: the invariant discharged at a concrete mutator-built
value. -/
theorem c10_mutator_built_due_invariant_witness :
    ((Due.create "x").set_date "2017-12-25").timezone = none ∧
    (((Due.create "x").set_date "2017-12-25").date = none ∨
     ((Due.create "x").set_date "2017-12-25").datetime = none) :=
  ⟨(c10_mutator_built_due_invariant.1 _
      (DueReachable.set_date _ _ (DueReachable.create "x"))).1,
   (c10_mutator_built_due_invariant.1 _
      (DueReachable.set_date _ _ (DueReachable.create "x"))).2.1⟩

/-- C5: decoding a wire read-model object succeeds only when the
required fields `content`, `completed`, `priority` and `label_ids` are
present and well-typed (so a missing or type-mismatched required field
makes decoding fail); unknown or extra fields, at the top level and
inside the due object, never affect the result; and absent optional
fields decode to unset. -/
theorem c5_decode_contract (l ld : List (String × JValue)) :
    (∀ t, Task.deserialize (.obj l) = .ok t →
      (∃ v, List.lookup "content" l = some v ∧ decodeString v = .ok t.content) ∧
      (∃ v, List.lookup "completed" l = some v ∧ decodeBool v = .ok t.completed) ∧
      (∃ v, List.lookup "priority" l = some v ∧ decodeU32 v = .ok t.priority) ∧
      (∃ v, List.lookup "label_ids" l = some v ∧ decodeU32Array v = .ok t.label_ids) ∧
      (List.lookup "id" l = none → t.id = none) ∧
      (List.lookup "project_id" l = none → t.project_id = none) ∧
      (List.lookup "order" l = none → t.order = none) ∧
      (List.lookup "indent" l = none → t.indent = none) ∧
      (List.lookup "due" l = none → t.due = none) ∧
      (List.lookup "url" l = none → t.url = none) ∧
      (List.lookup "comment_count" l = none → t.comment_count = none)) ∧
    Task.deserialize (.obj (l.filter (fun p => knownTaskFields.contains p.1))) =
      Task.deserialize (.obj l) ∧
    Due.deserialize (.obj (ld.filter (fun p => knownDueFields.contains p.1))) =
      Due.deserialize (.obj ld) := by
  refine ⟨?_, taskDeserialize_ignores_unknown l, dueDeserialize_ignores_unknown ld⟩
  intro t h
  simp only [Task.deserialize] at h
  simp only [exceptBind_eq_ok] at h
  obtain ⟨id, hid, pid, hpid, content, hcontent, completed, hcompleted, lbls, hlbls,
          ord, hord, ind, hind, pri, hpri, due, hdue, url, hurl, cc, hcc, hmk⟩ := h
  have ht : t = { id := id, project_id := pid, content := content, completed := completed,
                  label_ids := lbls, order := ord, indent := ind, priority := pri,
                  due := due, url := url, comment_count := cc } := (Except.ok.inj hmk).symm
  subst ht
  refine ⟨reqField_eq_ok hcontent, reqField_eq_ok hcompleted, reqField_eq_ok hpri,
          reqField_eq_ok hlbls, ?_, ?_, ?_, ?_, ?_, ?_, ?_⟩
  · intro hnone; rw [optField_of_lookup_none hnone] at hid; exact (Except.ok.inj hid).symm
  · intro hnone; rw [optField_of_lookup_none hnone] at hpid; exact (Except.ok.inj hpid).symm
  · intro hnone; rw [optField_of_lookup_none hnone] at hord; exact (Except.ok.inj hord).symm
  · intro hnone; rw [optField_of_lookup_none hnone] at hind; exact (Except.ok.inj hind).symm
  · intro hnone; rw [optField_of_lookup_none hnone] at hdue; exact (Except.ok.inj hdue).symm
  · intro hnone; rw [optField_of_lookup_none hnone] at hurl; exact (Except.ok.inj hurl).symm
  · intro hnone; rw [optField_of_lookup_none hnone] at hcc; exact (Except.ok.inj hcc).symm

/-- C5 witness: the contract at a concrete wire object that decodes
successfully despite an unknown extra field, with `id` absent and unset. -/
theorem c5_decode_contract_witness :
    (∃ v, List.lookup "content" c5WireTask = some v ∧
      decodeString v = .ok c5DecodedTask.content) ∧
    c5DecodedTask.id = none := by
  have h := (c5_decode_contract c5WireTask []).1 c5DecodedTask rfl
  exact ⟨h.1, h.2.2.2.2.1 rfl⟩

end TodoistRest
